import Mathlib

/-!
Verification development for the OmniFocus perspective query engine.

The engine (source: `getDataByPerspective.ts`, the feature-complete path built
around `generateOptimizedGetDataByPerspectiveScript`) generates a script that
scans the provider's flattened task list, applies a selectivity-ordered
predicate pipeline, scores survivors, classifies them into high/medium/low
tiers, collects them under per-tier quotas with global early termination, and
concatenates the tier buckets.  The TypeScript wrapper then parses the
provider response.

Shallow embedding choices:
  * JavaScript numbers for durations, budgets, scores and counters are
    modelled as integers (the source only ever uses integral values there;
    for every budget in the checked range the double-precision
    `Math.floor(b * 0.4)` agrees with the exact floor used here, see
    `capHigh_eq_floor`).
  * Date values are modelled by integer timestamps in seconds, so the
    script comparison `(taskDueDate - currentDate) / days < k` becomes the
    exact integer comparison `due - now < k * days` with `days = 86400`
    (AppleScript's `days` constant), preserving the fractional-day
    semantics exactly.
  * The provider database (the records behind `flattened tasks` and
    `flattened projects`) is an explicit structure; window/perspective
    manipulation and the `osascript` transport are I/O and are not modelled.
  * Optional TypeScript parameters are `Option`s; the destructuring defaults
    of the source are applied by explicit `resolved…` functions, and the
    template-literal truthiness tests (`minEstimatedMinutes ? … : ''`) by
    explicit `effective…` functions.
-/

/-- A task record as read by the generated script (`flattened tasks`):
the fields of `TaskInfo` plus the `dropped` state the script also reads. -/
structure TaskRecord where
  id : String
  name : String
  completed : Bool
  dropped : Bool
  flagged : Bool
  estimatedMinutes : Option Int
  dueDate : Option Int
  deferDate : Option Int
  tags : List String
  projectName : Option String
  note : String
deriving DecidableEq, Repr

/-- A project record (`ProjectInfo` / `flattened projects`).  `taskCount`
models `count of flattened tasks of aProject`. -/
structure ProjectRecord where
  id : String
  name : String
  status : String
  flagged : Bool
  estimatedMinutes : Option Int
  dueDate : Option Int
  taskCount : Int
deriving DecidableEq, Repr

/-- `GetDataByPerspectiveParams` from the source; all optional fields are
`Option`s, defaults are applied by the `resolved…` functions below exactly as
the destructuring defaults do. -/
structure GetDataByPerspectiveParams where
  perspectiveName : String
  hideCompleted : Option Bool := none
  hideRecurringDuplicates : Option Bool := none
  minEstimatedMinutes : Option Int := none
  maxEstimatedMinutes : Option Int := none
  flaggedOnly : Option Bool := none
  withTags : Option (List String) := none
  withDueDate : Option Bool := none
  projectName : Option String := none
  maxResults : Option Int := none
  prioritizeUrgent : Option Bool := none
deriving DecidableEq, Repr

namespace GetDataByPerspectiveParams

/-- `hideCompleted = true` destructuring default. -/
def resolvedHideCompleted (p : GetDataByPerspectiveParams) : Bool :=
  p.hideCompleted.getD true

/-- `flaggedOnly = false` destructuring default. -/
def resolvedFlaggedOnly (p : GetDataByPerspectiveParams) : Bool :=
  p.flaggedOnly.getD false

/-- `withTags = []` destructuring default. -/
def resolvedWithTags (p : GetDataByPerspectiveParams) : List String :=
  p.withTags.getD []

/-- `maxResults = 500` destructuring default. -/
def resolvedMaxResults (p : GetDataByPerspectiveParams) : Int :=
  p.maxResults.getD 500

/-- `prioritizeUrgent = true` destructuring default. -/
def resolvedPrioritizeUrgent (p : GetDataByPerspectiveParams) : Bool :=
  p.prioritizeUrgent.getD true

/-- The min-duration filter is spliced into the script only when
`minEstimatedMinutes` is truthy (so `0` and `undefined` both disable it). -/
def effectiveMin (p : GetDataByPerspectiveParams) : Option Int :=
  match p.minEstimatedMinutes with
  | some m => if m = 0 then none else some m
  | none => none

/-- The max-duration filter is spliced in only when `maxEstimatedMinutes`
is truthy. -/
def effectiveMax (p : GetDataByPerspectiveParams) : Option Int :=
  match p.maxEstimatedMinutes with
  | some m => if m = 0 then none else some m
  | none => none

/-- `escapedProjectName`: `projectName?.replace(...) || ''`.  The escaping
(quotes and backslashes) round-trips through the script literal, so the value
compared inside the script is the original name; absence collapses to `""`,
and the filter block tests `is not ""`. -/
def effectiveProjectName (p : GetDataByPerspectiveParams) : String :=
  p.projectName.getD ""

end GetDataByPerspectiveParams

open GetDataByPerspectiveParams

/-- AppleScript's `days` constant: the number of seconds in a day, the
divisor in the script's `daysDiff` computation. -/
def days : Int := 86400

/-- Urgency score of one task, lines 273–317 of the generated script: the
running sum starts at 0 and accumulates a flagged bonus, one due-date band
(`daysDiff = due - now` in fractional days), and one duration band.  Missing
due date or duration contributes nothing (the duration bands additionally
require the value to be present, line 306). -/
def urgencyScore (now : Int) (t : TaskRecord) : Int :=
  (if t.flagged then 100 else 0) +
  (match t.dueDate with
   | none => 0
   | some due =>
     let diff := due - now
     if diff < 0 then 200
     else if diff < 1 * days then 150
     else if diff < 2 * days then 100
     else if diff < 8 * days then 50
     else 0) +
  (match t.estimatedMinutes with
   | none => 0
   | some est =>
     if est ≤ 15 then 30
     else if est ≤ 30 then 20
     else if est ≤ 60 then 10
     else 0)

/-- Priority tier. -/
inductive Priority where
  | high
  | medium
  | low
deriving DecidableEq, Repr

/-- Lines 319–325 of the script (and `getPriorityLevel` in the TS source):
`≥ 150 → high`, `≥ 50 → medium`, otherwise `low`. -/
def getPriorityLevel (score : Int) : Priority :=
  if 150 ≤ score then .high
  else if 50 ≤ score then .medium
  else .low

/-- The configuration the scan loop actually reads, with destructuring
defaults and template-literal truthiness already applied. -/
structure ScanConfig where
  projectNameValue : String
  flaggedOnly : Bool
  minEst : Option Int
  maxEst : Option Int
  withDueDate : Option Bool
  hideCompleted : Bool
  maxHigh : Int
  maxMed : Int
  maxLow : Int
  now : Int
deriving DecidableEq, Repr

/-- Tier capacities, lines 159–161: `Math.floor(maxResults * 0.4)` twice
and `Math.floor(maxResults * 0.2)`, as exact integer floors of `b * 2/5`
and `b * 1/5` (integer division on `Int` rounds toward negative infinity;
`capHigh_eq_floor` and `capLow_eq_floor` record agreement with the
rational-arithmetic floor). -/
def capHigh (b : Int) : Int := b * 2 / 5
def capMed (b : Int) : Int := b * 2 / 5
def capLow (b : Int) : Int := b / 5

/-- Assemble the scan configuration from the caller parameters (lines
105–121 and 159–161). -/
def mkScanConfig (p : GetDataByPerspectiveParams) (now : Int) : ScanConfig :=
  { projectNameValue := effectiveProjectName p
    flaggedOnly := resolvedFlaggedOnly p
    minEst := effectiveMin p
    maxEst := effectiveMax p
    withDueDate := p.withDueDate
    hideCompleted := resolvedHideCompleted p
    maxHigh := capHigh (resolvedMaxResults p)
    maxMed := capMed (resolvedMaxResults p)
    maxLow := capLow (resolvedMaxResults p)
    now := now }

/-- The predicate pipeline of the generated script, lines 176–270, evaluated
in source order (project name, flagged, min duration, max duration, due-date
presence, hide completed; the `withTags` parameter is never consulted there).
A missing containing project fails the project filter; a missing duration
fails the min filter but passes the max filter (line 229–235); the due-date
presence filter demands presence or absence according to its flag. -/
def passesFilters (cfg : ScanConfig) (t : TaskRecord) : Bool :=
  (if cfg.projectNameValue ≠ "" then
     match t.projectName with
     | some n => n == cfg.projectNameValue
     | none => false
   else true) &&
  (if cfg.flaggedOnly then t.flagged else true) &&
  (match cfg.minEst with
   | some m =>
     match t.estimatedMinutes with
     | some est => !(est < m)
     | none => false
   | none => true) &&
  (match cfg.maxEst with
   | some m =>
     match t.estimatedMinutes with
     | some est => !(m < est)
     | none => true
   | none => true) &&
  (match cfg.withDueDate with
   | some true => t.dueDate.isSome
   | some false => t.dueDate.isNone
   | none => true) &&
  (if cfg.hideCompleted then !(t.completed || t.dropped) else true)

/-- Quota-collector state: the three tier buckets and counters
(lines 154–165 of the script). -/
structure ScanState where
  highTasks : List TaskRecord := []
  medTasks : List TaskRecord := []
  lowTasks : List TaskRecord := []
  highCount : Int := 0
  medCount : Int := 0
  lowCount : Int := 0
deriving DecidableEq, Repr

/-- Lines 327–338 plus 401–409: a classified task is appended to its tier
bucket only while that tier's counter is below capacity, and then the
counter is incremented; otherwise it is dropped by quota. -/
def acceptTask (cfg : ScanConfig) (lvl : Priority) (t : TaskRecord)
    (s : ScanState) : ScanState :=
  match lvl with
  | .high =>
    if s.highCount < cfg.maxHigh then
      { s with highTasks := s.highTasks ++ [t], highCount := s.highCount + 1 }
    else s
  | .medium =>
    if s.medCount < cfg.maxMed then
      { s with medTasks := s.medTasks ++ [t], medCount := s.medCount + 1 }
    else s
  | .low =>
    if s.lowCount < cfg.maxLow then
      { s with lowTasks := s.lowTasks ++ [t], lowCount := s.lowCount + 1 }
    else s

/-- The scan loop over `flattened tasks`, lines 167–411.  Each iteration
first checks the global early-termination condition (line 172: every counter
has reached its capacity) and exits the loop; otherwise the record goes
through the predicate pipeline and, on success, is scored, classified and
offered to the quota collector.  The second component counts how many
records were actually evaluated (reached the pipeline), instrumentation used
to state the early-termination bound. -/
def scanTasksCounted (cfg : ScanConfig) :
    List TaskRecord → ScanState → ScanState × Nat
  | [], s => (s, 0)
  | t :: rest, s =>
    if cfg.maxHigh ≤ s.highCount ∧ cfg.maxMed ≤ s.medCount ∧
        cfg.maxLow ≤ s.lowCount then
      (s, 0)
    else
      let s2 :=
        if passesFilters cfg t then
          acceptTask cfg (getPriorityLevel (urgencyScore cfg.now t)) t s
        else s
      let r := scanTasksCounted cfg rest s2
      (r.1, r.2 + 1)

/-- The scan's final state (the faithful part of `scanTasksCounted`). -/
def scanTasks (cfg : ScanConfig) (ts : List TaskRecord) (s : ScanState) :
    ScanState :=
  (scanTasksCounted cfg ts s).1

/-- The early-termination condition of line 172. -/
def saturated (cfg : ScanConfig) (s : ScanState) : Prop :=
  cfg.maxHigh ≤ s.highCount ∧ cfg.maxMed ≤ s.medCount ∧ cfg.maxLow ≤ s.lowCount

instance (cfg : ScanConfig) (s : ScanState) : Decidable (saturated cfg s) :=
  inferInstanceAs (Decidable (_ ∧ _ ∧ _))

/-- The provider database behind `flattened tasks` and `flattened projects`,
together with the clock the script reads (`current date`), in days. -/
structure Database where
  tasks : List TaskRecord
  projects : List ProjectRecord
  now : Int
deriving DecidableEq, Repr

/-- The stats block of the script output (line 469). -/
structure ScriptStats where
  highPriority : Int
  mediumPriority : Int
  lowPriority : Int
  totalFiltered : Int
  maxResults : Int
deriving DecidableEq, Repr

/-- The decoded payload of a successful run of the optimized script. -/
structure ScriptSuccess where
  perspective : String
  tasks : List TaskRecord
  projects : List ProjectRecord
  stats : ScriptStats
deriving DecidableEq, Repr

/-- Outcome of one script run: the success payload, or the `on error`
branch's message (line 474–476). -/
inductive ScriptResult where
  | ok (r : ScriptSuccess)
  | err (msg : String)
deriving DecidableEq, Repr

/-- Tier concatenation, lines 447–452: urgent-first gives
high ++ medium ++ low, otherwise low ++ medium ++ high. -/
def assembleTasks (prioritizeUrgent : Bool) (s : ScanState) : List TaskRecord :=
  if prioritizeUrgent then s.highTasks ++ s.medTasks ++ s.lowTasks
  else s.lowTasks ++ s.medTasks ++ s.highTasks

/-- The whole optimized script on a given database (success path; transport
and window manipulation are I/O and outside the model).  The project loop,
lines 414–445, serializes every project unconditionally — it applies no
filter. -/
def runOptimizedScript (p : GetDataByPerspectiveParams) (db : Database) :
    ScriptResult :=
  let cfg := mkScanConfig p db.now
  let s := scanTasks cfg db.tasks {}
  .ok
    { perspective := p.perspectiveName
      tasks := assembleTasks (resolvedPrioritizeUrgent p) s
      projects := db.projects
      stats :=
        { highPriority := s.highCount
          mediumPriority := s.medCount
          lowPriority := s.lowCount
          totalFiltered := s.highCount + s.medCount + s.lowCount
          maxResults := resolvedMaxResults p } }

/-- The project loop of the plain (non-optimized) script,
`generateGetDataByPerspectiveScript` lines 238–246: a project is kept unless
`hideCompleted` is set and its status is done or dropped. -/
def visibleProjectsPlain (hideCompleted : Bool) (projects : List ProjectRecord) :
    List ProjectRecord :=
  projects.filter fun pr =>
    !(hideCompleted && (pr.status == "done" || pr.status == "dropped"))

/-- A task entry of the provider's JSON payload as the TypeScript side sees
it after `JSON.parse`: the script emits `tags` as one comma-joined string
(lines 374–386 and 399). -/
structure RawTask where
  id : String
  name : String
  completed : Bool
  flagged : Bool
  estimatedMinutes : Option Int := none
  dueDate : Option Int := none
  deferDate : Option Int := none
  tags : String := ""
  projectName : Option String := none
  note : String := ""
  urgencyScore : Int := 0
deriving DecidableEq, Repr

/-- `TaskInfo` as returned by `getDataByPerspective`. -/
structure TaskInfo where
  id : String
  name : String
  completed : Bool
  flagged : Bool
  estimatedMinutes : Option Int := none
  dueDate : Option Int := none
  deferDate : Option Int := none
  tags : List String := []
  projectName : Option String := none
  note : String := ""
  urgencyScore : Int := 0
deriving DecidableEq, Repr

/-- A parsed provider response (`JSON.parse(stdout.trim())`): success flag
and, depending on it, payload lists, stats, or an error message. -/
structure ParsedResponse where
  success : Bool
  perspective : Option String := none
  tasks : Option (List RawTask) := none
  projects : Option (List ProjectRecord) := none
  stats : Option ScriptStats := none
  error : Option String := none
deriving DecidableEq, Repr

/-- The result record `getDataByPerspective` resolves with. -/
structure EngineOutput where
  success : Bool
  perspective : Option String := none
  tasks : Option (List TaskInfo) := none
  projects : Option (List ProjectRecord) := none
  stats : Option ScriptStats := none
  error : Option String := none
deriving DecidableEq, Repr

/-- Field mapping of one raw task, lines 501–513 of the source: identity on
all fields except `tags`, where a truthy (non-empty) comma-joined string is
split on commas and blank fragments are dropped. -/
def mapRawTask (r : RawTask) : TaskInfo :=
  { id := r.id
    name := r.name
    completed := r.completed
    flagged := r.flagged
    estimatedMinutes := r.estimatedMinutes
    dueDate := r.dueDate
    deferDate := r.deferDate
    tags :=
      if r.tags ≠ "" then
        (r.tags.splitOn ",").filter fun tag => tag.trim ≠ ""
      else []
    projectName := r.projectName
    note := r.note
    urgencyScore := r.urgencyScore }

/-- Lines 498–537 of the source: on `success` the task and project lists are
mapped field-by-field (`|| []` when absent) and the stats are passed
through; otherwise the engine resolves with a failure carrying exactly the
provider's error message and no task, project or stats fields. -/
def handleResponse (r : ParsedResponse) : EngineOutput :=
  if r.success then
    { success := true
      perspective := r.perspective
      tasks := some ((r.tasks.getD []).map mapRawTask)
      projects := some (r.projects.getD [])
      stats := r.stats }
  else
    { success := false, error := r.error }

/-- Serialization of a script outcome into the parsed response the
TypeScript side receives (lines 399, 443, 455–469, 475 of the script
template).  A bucketed task's emitted `urgencyScore` is the score computed
during the scan, which equals `urgencyScore now t` because both read the
same fields and clock. -/
def scriptResponse (p : GetDataByPerspectiveParams) (db : Database) :
    ParsedResponse :=
  match runOptimizedScript p db with
  | .ok r =>
    { success := true
      perspective := some r.perspective
      tasks := some (r.tasks.map fun t =>
        { id := t.id
          name := t.name
          completed := t.completed
          flagged := t.flagged
          estimatedMinutes := t.estimatedMinutes
          dueDate := t.dueDate
          deferDate := t.deferDate
          tags := String.intercalate "," t.tags
          projectName := t.projectName
          note := t.note
          urgencyScore := urgencyScore db.now t })
      projects := some r.projects
      stats := some r.stats }
  | .err msg => { success := false, error := some msg }

/-- End-to-end model of `getDataByPerspective`: generate and run the script
against the provider database, then handle the parsed response.  There is no
validation step between receiving the parameters and the provider call. -/
def getDataByPerspectiveModel (p : GetDataByPerspectiveParams)
    (db : Database) : EngineOutput :=
  handleResponse (scriptResponse p db)

/-! ### Basic lemmas about capacities and the scan loop -/

/-- The integer-division capacities agree with the rational-arithmetic
floor `Math.floor(b * 0.4)` computes. -/
theorem capHigh_eq_floor (b : Int) : capHigh b = ⌊(b : ℚ) * 0.4⌋ := by
  have h2 := Rat.floor_intCast_div_natCast (b * 2) 5
  have h : ((b * 2 : Int) : ℚ) / ((5 : ℕ) : ℚ) = (b : ℚ) * 0.4 := by
    push_cast
    ring_nf
  rw [h] at h2
  norm_cast at h2
  rw [capHigh]
  exact h2.symm

/-- The low-tier capacity agrees with `Math.floor(b * 0.2)`. -/
theorem capLow_eq_floor (b : Int) : capLow b = ⌊(b : ℚ) * 0.2⌋ := by
  have h2 := Rat.floor_intCast_div_natCast b 5
  have h : ((b : Int) : ℚ) / ((5 : ℕ) : ℚ) = (b : ℚ) * 0.2 := by
    push_cast
    ring_nf
  rw [h] at h2
  norm_cast at h2
  rw [capLow]
  exact h2.symm

theorem capHigh_nonneg {b : Int} (hb : 0 ≤ b) : 0 ≤ capHigh b := by
  rw [capHigh]; omega

theorem capMed_nonneg {b : Int} (hb : 0 ≤ b) : 0 ≤ capMed b := by
  rw [capMed]; omega

theorem capLow_nonneg {b : Int} (hb : 0 ≤ b) : 0 ≤ capLow b := by
  rw [capLow]; omega

theorem capHigh_nonpos {b : Int} (hb : b ≤ 0) : capHigh b ≤ 0 := by
  rw [capHigh]; omega

theorem capMed_nonpos {b : Int} (hb : b ≤ 0) : capMed b ≤ 0 := by
  rw [capMed]; omega

theorem capLow_nonpos {b : Int} (hb : b ≤ 0) : capLow b ≤ 0 := by
  rw [capLow]; omega

/-- The 40%/40%/20% capacities never sum beyond the budget. -/
theorem cap_sum_le_budget (b : Int) :
    capHigh b + capMed b + capLow b ≤ b := by
  rw [capHigh, capMed, capLow]; omega

/-- A saturated state exits the scan immediately, evaluating nothing. -/
theorem scanTasksCounted_of_saturated {cfg : ScanConfig} {s : ScanState}
    (h : saturated cfg s) (ts : List TaskRecord) :
    scanTasksCounted cfg ts s = (s, 0) := by
  cases ts with
  | nil => rfl
  | cons t rest =>
    obtain ⟨h1, h2, h3⟩ := h
    simp [scanTasksCounted, h1, h2, h3]

/-- The scan evaluates at most as many records as the stream holds. -/
theorem scanTasksCounted_le_length (cfg : ScanConfig) :
    ∀ (ts : List TaskRecord) (s : ScanState),
    (scanTasksCounted cfg ts s).2 ≤ ts.length := by
  intro ts
  induction ts with
  | nil => intro s; simp [scanTasksCounted]
  | cons t rest ih =>
    intro s
    by_cases hex : cfg.maxHigh ≤ s.highCount ∧ cfg.maxMed ≤ s.medCount ∧
        cfg.maxLow ≤ s.lowCount
    · simp [scanTasksCounted, hex]
    · simp only [scanTasksCounted, if_neg hex, List.length_cons]
      exact Nat.add_le_add_right (ih _) 1

/-- Scanning a concatenated stream is scanning the first part, then the
second from the resulting state (the early exit re-fires immediately on the
second part when it fired in the first). -/
theorem scanTasksCounted_append (cfg : ScanConfig) :
    ∀ (l1 l2 : List TaskRecord) (s : ScanState),
    scanTasksCounted cfg (l1 ++ l2) s =
      ((scanTasksCounted cfg l2 (scanTasksCounted cfg l1 s).1).1,
       (scanTasksCounted cfg l1 s).2 +
         (scanTasksCounted cfg l2 (scanTasksCounted cfg l1 s).1).2) := by
  intro l1
  induction l1 with
  | nil => intro l2 s; simp [scanTasksCounted]
  | cons t rest ih =>
    intro l2 s
    by_cases hex : cfg.maxHigh ≤ s.highCount ∧ cfg.maxMed ≤ s.medCount ∧
        cfg.maxLow ≤ s.lowCount
    · have hsat :
          scanTasksCounted cfg l2 s = (s, 0) :=
        scanTasksCounted_of_saturated hex l2
      simp [scanTasksCounted, hex, hsat]
    · simp only [List.cons_append, scanTasksCounted, if_neg hex]
      rw [List.append_eq, ih]
      simp only [Prod.mk.injEq]
      exact ⟨trivial, by omega⟩

/-- Summary of everything one scan run adds to a starting state `s` to reach
a final state `r`: per tier, the added tasks (in order), their provenance
(an order-preserving selection from the stream), the fact that each added
task passed the pipeline and classifies into its bucket's tier, the counter
bookkeeping, and preservation of the capacity bounds. -/
def ScanDelta (cfg : ScanConfig) (ts : List TaskRecord) (s r : ScanState) :
    Prop :=
  ∃ d1 d2 d3 : List TaskRecord,
    r.highTasks = s.highTasks ++ d1 ∧
    r.medTasks = s.medTasks ++ d2 ∧
    r.lowTasks = s.lowTasks ++ d3 ∧
    d1.Sublist ts ∧ d2.Sublist ts ∧ d3.Sublist ts ∧
    (∀ t ∈ d1, passesFilters cfg t = true ∧
      getPriorityLevel (urgencyScore cfg.now t) = .high) ∧
    (∀ t ∈ d2, passesFilters cfg t = true ∧
      getPriorityLevel (urgencyScore cfg.now t) = .medium) ∧
    (∀ t ∈ d3, passesFilters cfg t = true ∧
      getPriorityLevel (urgencyScore cfg.now t) = .low) ∧
    r.highCount = s.highCount + (d1.length : Int) ∧
    r.medCount = s.medCount + (d2.length : Int) ∧
    r.lowCount = s.lowCount + (d3.length : Int) ∧
    (s.highCount ≤ cfg.maxHigh → r.highCount ≤ cfg.maxHigh) ∧
    (s.medCount ≤ cfg.maxMed → r.medCount ≤ cfg.maxMed) ∧
    (s.lowCount ≤ cfg.maxLow → r.lowCount ≤ cfg.maxLow)

theorem ScanDelta.refl (cfg : ScanConfig) (ts : List TaskRecord)
    (s : ScanState) : ScanDelta cfg ts s s := by
  refine ⟨[], [], [], by simp, by simp, by simp, List.nil_sublist ts,
    List.nil_sublist ts, List.nil_sublist ts, by simp, by simp, by simp,
    by simp, by simp, by simp, ?_, ?_, ?_⟩ <;> exact fun h => h

theorem ScanDelta.weaken {cfg : ScanConfig} {rest : List TaskRecord}
    {s r : ScanState} (t : TaskRecord) (h : ScanDelta cfg rest s r) :
    ScanDelta cfg (t :: rest) s r := by
  obtain ⟨d1, d2, d3, a1, a2, a3, b1, b2, b3, p1, p2, p3, c1, c2, c3,
    f1, f2, f3⟩ := h
  exact ⟨d1, d2, d3, a1, a2, a3, b1.cons t, b2.cons t, b3.cons t,
    p1, p2, p3, c1, c2, c3, f1, f2, f3⟩

theorem ScanDelta.acceptHigh {cfg : ScanConfig} {rest : List TaskRecord}
    {s r : ScanState} {t : TaskRecord}
    (hp : passesFilters cfg t = true)
    (hl : getPriorityLevel (urgencyScore cfg.now t) = .high)
    (hc : s.highCount < cfg.maxHigh)
    (h : ScanDelta cfg rest
      { s with highTasks := s.highTasks ++ [t], highCount := s.highCount + 1 }
      r) :
    ScanDelta cfg (t :: rest) s r := by
  obtain ⟨d1, d2, d3, a1, a2, a3, b1, b2, b3, p1, p2, p3, c1, c2, c3,
    f1, f2, f3⟩ := h
  refine ⟨t :: d1, d2, d3, ?_, a2, a3, b1.cons₂ t, b2.cons t, b3.cons t,
    ?_, p2, p3, ?_, c2, c3, ?_, f2, f3⟩
  · simpa [List.append_assoc] using a1
  · intro x hx
    rcases List.mem_cons.mp hx with hx | hx
    · exact hx ▸ ⟨hp, hl⟩
    · exact p1 x hx
  · have hc1 : r.highCount = s.highCount + 1 + (d1.length : Int) := c1
    simp only [List.length_cons]
    push_cast
    omega
  · intro _
    exact f1 (show s.highCount + 1 ≤ cfg.maxHigh by omega)

theorem ScanDelta.acceptMed {cfg : ScanConfig} {rest : List TaskRecord}
    {s r : ScanState} {t : TaskRecord}
    (hp : passesFilters cfg t = true)
    (hl : getPriorityLevel (urgencyScore cfg.now t) = .medium)
    (hc : s.medCount < cfg.maxMed)
    (h : ScanDelta cfg rest
      { s with medTasks := s.medTasks ++ [t], medCount := s.medCount + 1 }
      r) :
    ScanDelta cfg (t :: rest) s r := by
  obtain ⟨d1, d2, d3, a1, a2, a3, b1, b2, b3, p1, p2, p3, c1, c2, c3,
    f1, f2, f3⟩ := h
  refine ⟨d1, t :: d2, d3, a1, ?_, a3, b1.cons t, b2.cons₂ t, b3.cons t,
    p1, ?_, p3, c1, ?_, c3, f1, ?_, f3⟩
  · simpa [List.append_assoc] using a2
  · intro x hx
    rcases List.mem_cons.mp hx with hx | hx
    · exact hx ▸ ⟨hp, hl⟩
    · exact p2 x hx
  · have hc2 : r.medCount = s.medCount + 1 + (d2.length : Int) := c2
    simp only [List.length_cons]
    push_cast
    omega
  · intro _
    exact f2 (show s.medCount + 1 ≤ cfg.maxMed by omega)

theorem ScanDelta.acceptLow {cfg : ScanConfig} {rest : List TaskRecord}
    {s r : ScanState} {t : TaskRecord}
    (hp : passesFilters cfg t = true)
    (hl : getPriorityLevel (urgencyScore cfg.now t) = .low)
    (hc : s.lowCount < cfg.maxLow)
    (h : ScanDelta cfg rest
      { s with lowTasks := s.lowTasks ++ [t], lowCount := s.lowCount + 1 }
      r) :
    ScanDelta cfg (t :: rest) s r := by
  obtain ⟨d1, d2, d3, a1, a2, a3, b1, b2, b3, p1, p2, p3, c1, c2, c3,
    f1, f2, f3⟩ := h
  refine ⟨d1, d2, t :: d3, a1, a2, ?_, b1.cons t, b2.cons t, b3.cons₂ t,
    p1, p2, ?_, c1, c2, ?_, f1, f2, ?_⟩
  · simpa [List.append_assoc] using a3
  · intro x hx
    rcases List.mem_cons.mp hx with hx | hx
    · exact hx ▸ ⟨hp, hl⟩
    · exact p3 x hx
  · have hc3 : r.lowCount = s.lowCount + 1 + (d3.length : Int) := c3
    simp only [List.length_cons]
    push_cast
    omega
  · intro _
    exact f3 (show s.lowCount + 1 ≤ cfg.maxLow by omega)

/-- The scan run realizes a `ScanDelta` from its starting to its final
state. -/
theorem scan_spec (cfg : ScanConfig) :
    ∀ (ts : List TaskRecord) (s : ScanState),
    ScanDelta cfg ts s (scanTasks cfg ts s) := by
  intro ts
  induction ts with
  | nil =>
    intro s
    exact ScanDelta.refl cfg [] s
  | cons t rest ih =>
    intro s
    by_cases hex : cfg.maxHigh ≤ s.highCount ∧ cfg.maxMed ≤ s.medCount ∧
        cfg.maxLow ≤ s.lowCount
    · have hr : scanTasks cfg (t :: rest) s = s := by
        simp [scanTasks, scanTasksCounted, hex]
      rw [hr]
      exact ScanDelta.refl cfg (t :: rest) s
    · have hstep : scanTasks cfg (t :: rest) s =
          scanTasks cfg rest
            (if passesFilters cfg t then
              acceptTask cfg (getPriorityLevel (urgencyScore cfg.now t)) t s
            else s) := by
        simp [scanTasks, scanTasksCounted, hex]
      rw [hstep]
      by_cases hp : passesFilters cfg t
      · rw [if_pos hp]
        rcases hl : getPriorityLevel (urgencyScore cfg.now t) with _ | _ | _
        · by_cases hc : s.highCount < cfg.maxHigh
          · rw [acceptTask, if_pos hc]
            exact ScanDelta.acceptHigh hp hl hc (ih _)
          · rw [acceptTask, if_neg hc]
            exact (ih s).weaken t
        · by_cases hc : s.medCount < cfg.maxMed
          · rw [acceptTask, if_pos hc]
            exact ScanDelta.acceptMed hp hl hc (ih _)
          · rw [acceptTask, if_neg hc]
            exact (ih s).weaken t
        · by_cases hc : s.lowCount < cfg.maxLow
          · rw [acceptTask, if_pos hc]
            exact ScanDelta.acceptLow hp hl hc (ih _)
          · rw [acceptTask, if_neg hc]
            exact (ih s).weaken t
      · rw [if_neg hp]
        exact (ih s).weaken t

/-! ### Run-level projections and shared lemmas -/

/-- The scan run of one query: the script's loop over `flattened tasks`
starting from empty buckets and zero counters. -/
def queryScan (p : GetDataByPerspectiveParams) (db : Database) : ScanState :=
  scanTasks (mkScanConfig p db.now) db.tasks {}

/-- The task list of one query's script output. -/
def queryTasks (p : GetDataByPerspectiveParams) (db : Database) :
    List TaskRecord :=
  match runOptimizedScript p db with
  | .ok r => r.tasks
  | .err _ => []

/-- The project list of one query's script output. -/
def queryProjects (p : GetDataByPerspectiveParams) (db : Database) :
    List ProjectRecord :=
  match runOptimizedScript p db with
  | .ok r => r.projects
  | .err _ => []

/-- The stats block of one query's script output. -/
def queryStats (p : GetDataByPerspectiveParams) (db : Database) : ScriptStats :=
  match runOptimizedScript p db with
  | .ok r => r.stats
  | .err _ =>
    { highPriority := 0, mediumPriority := 0, lowPriority := 0,
      totalFiltered := 0, maxResults := 0 }

theorem queryTasks_eq (p : GetDataByPerspectiveParams) (db : Database) :
    queryTasks p db =
      assembleTasks (resolvedPrioritizeUrgent p) (queryScan p db) := rfl

theorem queryStats_eq (p : GetDataByPerspectiveParams) (db : Database) :
    queryStats p db =
      { highPriority := (queryScan p db).highCount
        mediumPriority := (queryScan p db).medCount
        lowPriority := (queryScan p db).lowCount
        totalFiltered := (queryScan p db).highCount +
          (queryScan p db).medCount + (queryScan p db).lowCount
        maxResults := resolvedMaxResults p } := rfl

theorem queryScan_spec (p : GetDataByPerspectiveParams) (db : Database) :
    ScanDelta (mkScanConfig p db.now) db.tasks {} (queryScan p db) :=
  scan_spec _ db.tasks {}

/-- Reading the boolean pipeline: what passing each enabled filter says
about the record's fields. -/
theorem passesFilters_spec {cfg : ScanConfig} {t : TaskRecord}
    (h : passesFilters cfg t = true) :
    (cfg.projectNameValue ≠ "" → t.projectName = some cfg.projectNameValue) ∧
    (cfg.flaggedOnly = true → t.flagged = true) ∧
    (∀ m, cfg.minEst = some m →
      ∃ est, t.estimatedMinutes = some est ∧ m ≤ est) ∧
    (∀ m est, cfg.maxEst = some m → t.estimatedMinutes = some est →
      est ≤ m) ∧
    (cfg.withDueDate = some true → t.dueDate.isSome = true) ∧
    (cfg.withDueDate = some false → t.dueDate = none) ∧
    (cfg.hideCompleted = true → t.completed = false ∧ t.dropped = false) := by
  rw [passesFilters] at h
  simp only [Bool.and_eq_true] at h
  obtain ⟨⟨⟨⟨⟨h1, h2⟩, h3⟩, h4⟩, h5⟩, h6⟩ := h
  refine ⟨?_, ?_, ?_, ?_, ?_, ?_, ?_⟩
  · intro hne
    rw [if_pos hne] at h1
    cases hpn : t.projectName with
    | none => rw [hpn] at h1; exact absurd h1 (by simp)
    | some n =>
      rw [hpn] at h1
      simp only [beq_iff_eq] at h1
      rw [h1]
  · intro hf
    rw [hf] at h2
    simpa using h2
  · intro m hm
    rw [hm] at h3
    cases hest : t.estimatedMinutes with
    | none => rw [hest] at h3; exact absurd h3 (by simp)
    | some est =>
      rw [hest] at h3
      simp only [Bool.not_eq_true', decide_eq_false_iff_not, not_lt] at h3
      exact ⟨est, rfl, h3⟩
  · intro m est hm hest
    rw [hm, hest] at h4
    simp only [Bool.not_eq_true', decide_eq_false_iff_not, not_lt] at h4
    exact h4
  · intro hw
    rw [hw] at h5
    exact h5
  · intro hw
    rw [hw] at h5
    simpa [Option.isNone_iff_eq_none] using h5
  · intro hc
    rw [hc] at h6
    simp only [if_true, Bool.not_eq_true', Bool.or_eq_false_iff] at h6
    exact ⟨h6.1, h6.2⟩

/-! ### Concrete fixtures used by the witnesses and counterexamples -/

/-- An available task with no optional attributes: passes the default
pipeline, scores 0, classifies low. -/
def taskPlain : TaskRecord :=
  { id := "1", name := "walk", completed := false, dropped := false,
    flagged := false, estimatedMinutes := none, dueDate := none,
    deferDate := none, tags := [], projectName := none, note := "" }

/-- Flagged and one day overdue at clock 0: score 300, tier high. -/
def taskUrgent : TaskRecord :=
  { taskPlain with id := "2", flagged := true, dueDate := some (-days) }

/-- Due in three days at clock 0: score 50, tier medium. -/
def taskSoon : TaskRecord :=
  { taskPlain with id := "3", dueDate := some (3 * days) }

/-- A project whose status is done. -/
def doneProject : ProjectRecord :=
  { id := "p1", name := "Shipped", status := "done", flagged := false,
    estimatedMinutes := none, dueDate := none, taskCount := 0 }

/-- Criteria enabling the tag-membership and maximum-duration predicates. -/
def paramsTagsMax : GetDataByPerspectiveParams :=
  { perspectiveName := "Today", withTags := some ["work"],
    maxEstimatedMinutes := some 30, maxResults := some 10 }

/-- A database holding only `taskPlain`. -/
def dbPlain : Database := { tasks := [taskPlain], projects := [], now := 0 }

/-- Criteria with only a budget of 10 set. -/
def paramsBudgetTen : GetDataByPerspectiveParams :=
  { perspectiveName := "Today", maxResults := some 10 }

/-! ### C1 — the predicate pipeline versus the returned tasks -/

/-- C1 counterexample.  With the tag-membership criterion set to
`["work"]` and a maximum-duration bound of 30 enabled, the query still
returns `taskPlain`, which carries no tags at all (violating the enabled
tag-membership predicate) and has no estimated duration (so, under the
claim's missing-value-is-a-rejection reading, it also violates the enabled
maximum-duration predicate).  The claim that every returned task satisfies
every enabled predicate of the Filter Rule Table is therefore false. -/
theorem c1_counterexample :
    resolvedWithTags paramsTagsMax = ["work"] ∧
    effectiveMax paramsTagsMax = some 30 ∧
    taskPlain ∈ queryTasks paramsTagsMax dbPlain ∧
    taskPlain.tags = [] ∧
    taskPlain.estimatedMinutes = none := by
  refine ⟨rfl, by decide, ?_, rfl, rfl⟩
  decide

/-- C1 (amended).  Every task in the query result satisfies every enabled
predicate that the pipeline actually applies: project-name equality,
flagged-only, minimum duration (a missing duration is a rejection there),
maximum duration in the weaker present-value form (a missing duration
passes), due-date presence, and hide-completed.  The tag-membership
criterion is accepted in the parameters but never applied. -/
theorem c1_filter_soundness (p : GetDataByPerspectiveParams) (db : Database)
    (t : TaskRecord) (ht : t ∈ queryTasks p db) :
    (effectiveProjectName p ≠ "" →
      t.projectName = some (effectiveProjectName p)) ∧
    (resolvedFlaggedOnly p = true → t.flagged = true) ∧
    (∀ m, effectiveMin p = some m →
      ∃ est, t.estimatedMinutes = some est ∧ m ≤ est) ∧
    (∀ m est, effectiveMax p = some m → t.estimatedMinutes = some est →
      est ≤ m) ∧
    (p.withDueDate = some true → t.dueDate.isSome = true) ∧
    (p.withDueDate = some false → t.dueDate = none) ∧
    (resolvedHideCompleted p = true →
      t.completed = false ∧ t.dropped = false) := by
  have hpass : passesFilters (mkScanConfig p db.now) t = true := by
    obtain ⟨d1, d2, d3, a1, a2, a3, b1, b2, b3, p1, p2, p3, c1, c2, c3,
      f1, f2, f3⟩ := queryScan_spec p db
    rw [queryTasks_eq, assembleTasks] at ht
    have hmem : t ∈ (queryScan p db).highTasks ∨
        t ∈ (queryScan p db).medTasks ∨ t ∈ (queryScan p db).lowTasks := by
      by_cases hu : resolvedPrioritizeUrgent p = true
      · rw [if_pos hu] at ht
        rcases List.mem_append.mp ht with hx | hx
        · rcases List.mem_append.mp hx with hy | hy
          · exact Or.inl hy
          · exact Or.inr (Or.inl hy)
        · exact Or.inr (Or.inr hx)
      · rw [if_neg hu] at ht
        rcases List.mem_append.mp ht with hx | hx
        · rcases List.mem_append.mp hx with hy | hy
          · exact Or.inr (Or.inr hy)
          · exact Or.inr (Or.inl hy)
        · exact Or.inl hx
    have e1 : (queryScan p db).highTasks = d1 := by simpa using a1
    have e2 : (queryScan p db).medTasks = d2 := by simpa using a2
    have e3 : (queryScan p db).lowTasks = d3 := by simpa using a3
    rcases hmem with hx | hx | hx
    · exact (p1 t (e1 ▸ hx)).1
    · exact (p2 t (e2 ▸ hx)).1
    · exact (p3 t (e3 ▸ hx)).1
  exact passesFilters_spec hpass

/-- C1 witness: a concrete run returning `taskPlain`, whose guarantees
from `c1_filter_soundness` include that hide-completed is honoured. -/
theorem c1_witness :
    taskPlain ∈ queryTasks paramsBudgetTen dbPlain ∧
    (resolvedHideCompleted paramsBudgetTen = true →
      taskPlain.completed = false ∧ taskPlain.dropped = false) := by
  have hmem : taskPlain ∈ queryTasks paramsBudgetTen dbPlain := by decide
  exact ⟨hmem,
    (c1_filter_soundness paramsBudgetTen dbPlain taskPlain hmem).2.2.2.2.2.2⟩

/-! ### C2 — quota bounds -/

/-- C2.  For every nonnegative result budget, the per-tier accepted counts
reported in the stats never exceed the tier capacities
`floor(B*0.4)`, `floor(B*0.4)`, `floor(B*0.2)`, the capacities sum to at
most the budget, and hence the number of returned tasks is at most the
budget. -/
theorem c2_quota_bounds (p : GetDataByPerspectiveParams) (db : Database)
    (hb : 0 ≤ resolvedMaxResults p) :
    (queryStats p db).highPriority ≤ capHigh (resolvedMaxResults p) ∧
    (queryStats p db).mediumPriority ≤ capMed (resolvedMaxResults p) ∧
    (queryStats p db).lowPriority ≤ capLow (resolvedMaxResults p) ∧
    capHigh (resolvedMaxResults p) + capMed (resolvedMaxResults p) +
      capLow (resolvedMaxResults p) ≤ resolvedMaxResults p ∧
    ((queryTasks p db).length : Int) ≤ resolvedMaxResults p := by
  obtain ⟨d1, d2, d3, a1, a2, a3, b1, b2, b3, p1, p2, p3, c1, c2, c3,
    f1, f2, f3⟩ := queryScan_spec p db
  have hH : (queryScan p db).highCount ≤ capHigh (resolvedMaxResults p) :=
    f1 (show (0 : Int) ≤ capHigh (resolvedMaxResults p) from
      capHigh_nonneg hb)
  have hM : (queryScan p db).medCount ≤ capMed (resolvedMaxResults p) :=
    f2 (show (0 : Int) ≤ capMed (resolvedMaxResults p) from
      capMed_nonneg hb)
  have hL : (queryScan p db).lowCount ≤ capLow (resolvedMaxResults p) :=
    f3 (show (0 : Int) ≤ capLow (resolvedMaxResults p) from
      capLow_nonneg hb)
  have hc1 : (queryScan p db).highCount = 0 + (d1.length : Int) := c1
  have hc2 : (queryScan p db).medCount = 0 + (d2.length : Int) := c2
  have hc3 : (queryScan p db).lowCount = 0 + (d3.length : Int) := c3
  have e1 : (queryScan p db).highTasks = d1 := by simpa using a1
  have e2 : (queryScan p db).medTasks = d2 := by simpa using a2
  have e3 : (queryScan p db).lowTasks = d3 := by simpa using a3
  have hlen : (queryTasks p db).length =
      d1.length + d2.length + d3.length := by
    rw [queryTasks_eq, assembleTasks]
    split_ifs <;> simp [e1, e2, e3] <;> omega
  have hsum := cap_sum_le_budget (resolvedMaxResults p)
  have hlenInt : ((queryTasks p db).length : Int) =
      (queryScan p db).highCount + (queryScan p db).medCount +
        (queryScan p db).lowCount := by
    rw [hlen]
    push_cast
    omega
  exact ⟨hH, hM, hL, hsum, by omega⟩

/-- C2 witness: at budget 10 against the one-task database, the bounds are
realized concretely. -/
theorem c2_witness :
    0 ≤ resolvedMaxResults paramsBudgetTen ∧
    ((queryTasks paramsBudgetTen dbPlain).length : Int) ≤
      resolvedMaxResults paramsBudgetTen :=
  ⟨by decide,
   (c2_quota_bounds paramsBudgetTen dbPlain (by decide)).2.2.2.2⟩

/-! ### C3 — early termination -/

/-- C3.  The scan evaluates at most as many records as the stream holds,
and once the scan of a prefix has brought every tier counter to its
capacity, the records of any suffix are never evaluated: appending them
changes neither the resulting state nor the number of evaluated records. -/
theorem c3_early_termination (cfg : ScanConfig) (l1 l2 : List TaskRecord)
    (s : ScanState) (h : saturated cfg (scanTasks cfg l1 s)) :
    scanTasks cfg (l1 ++ l2) s = scanTasks cfg l1 s ∧
    (scanTasksCounted cfg (l1 ++ l2) s).2 = (scanTasksCounted cfg l1 s).2 ∧
    (∀ ts : List TaskRecord, (scanTasksCounted cfg ts s).2 ≤ ts.length) := by
  have happ := scanTasksCounted_append cfg l1 l2 s
  have hsat : scanTasksCounted cfg l2 (scanTasksCounted cfg l1 s).1 =
      ((scanTasksCounted cfg l1 s).1, 0) :=
    scanTasksCounted_of_saturated h l2
  refine ⟨?_, ?_, fun ts => scanTasksCounted_le_length cfg ts s⟩
  · rw [scanTasks, happ, hsat]
    rfl
  · rw [happ, hsat]
    rfl

/-- Criteria with a budget of 5: capacities 2, 2 and 1. -/
def paramsBudgetFive : GetDataByPerspectiveParams :=
  { perspectiveName := "Today", maxResults := some 5 }

/-- The scan configuration at budget 5 and clock 0. -/
def cfgBudgetFive : ScanConfig := mkScanConfig paramsBudgetFive 0

/-- A stream that fills all three tiers at budget 5: two high, two
medium, one low. -/
def fillingStream : List TaskRecord :=
  [taskUrgent, taskUrgent, taskSoon, taskSoon, taskPlain]

/-- C3 witness: after the filling stream saturates the counters at budget
5, appending one more (passing) record changes nothing. -/
theorem c3_witness :
    scanTasks cfgBudgetFive (fillingStream ++ [taskPlain]) {} =
      scanTasks cfgBudgetFive fillingStream {} :=
  (c3_early_termination cfgBudgetFive fillingStream [taskPlain] {}
    (by decide)).1

/-! ### C4 — missing values under duration bounds -/

/-- C4 counterexample.  With a maximum-duration bound of 30 enabled (and no
minimum bound), `taskPlain`, whose estimated duration is absent, passes the
pipeline and is returned: a missing value under the maximum-duration bound
is treated as a pass, contradicting the claim that a record lacking a field
required by an enabled predicate is rejected at that predicate. -/
theorem c4_counterexample :
    effectiveMax paramsTagsMax = some 30 ∧
    effectiveMin paramsTagsMax = none ∧
    taskPlain.estimatedMinutes = none ∧
    passesFilters (mkScanConfig paramsTagsMax 0) taskPlain = true ∧
    taskPlain ∈ queryTasks paramsTagsMax dbPlain := by
  refine ⟨by decide, by decide, rfl, by decide, by decide⟩

/-- C4 (amended).  A record without an estimated duration is rejected by
the pipeline whenever a minimum-duration bound is enabled; under the
maximum-duration bound, however, a missing duration is deliberately treated
as a pass (the bound is simply ignored for such a record, as the script's
own comment documents). -/
theorem c4_missing_duration :
    (∀ (cfg : ScanConfig) (t : TaskRecord), t.estimatedMinutes = none →
      cfg.minEst.isSome = true → passesFilters cfg t = false) ∧
    (∀ (cfg : ScanConfig) (t : TaskRecord) (m : Int),
      t.estimatedMinutes = none →
      passesFilters { cfg with maxEst := some m } t =
        passesFilters { cfg with maxEst := none } t) := by
  constructor
  · intro cfg t ht hmin
    cases hm : cfg.minEst with
    | none => rw [hm] at hmin; exact absurd hmin (by simp)
    | some m =>
      rw [passesFilters, hm, ht]
      simp
  · intro cfg t m ht
    rw [passesFilters, passesFilters, ht]

/-- C4 witness: a concrete configuration with a minimum bound of 30 rejects
the duration-less `taskPlain`, while adding a maximum bound of 30 to the
default configuration leaves its verdict unchanged. -/
theorem c4_witness :
    passesFilters (mkScanConfig
      { perspectiveName := "Today", minEstimatedMinutes := some 30 } 0)
      taskPlain = false ∧
    passesFilters
      { mkScanConfig paramsBudgetTen 0 with maxEst := some 30 } taskPlain =
      passesFilters
        { mkScanConfig paramsBudgetTen 0 with maxEst := none } taskPlain :=
  ⟨c4_missing_duration.1 _ taskPlain rfl rfl,
   c4_missing_duration.2 (mkScanConfig paramsBudgetTen 0) taskPlain 30 rfl⟩

/-! ### C5 — the urgency score -/

/-- Stated from the claim: the flagged contribution (+100 if flagged). -/
def flaggedContribution (t : TaskRecord) : Int :=
  if t.flagged then 100 else 0

/-- Stated from the claim: exactly one due-date band applies — overdue
+200; due within the next day +150; within the next two days +100; within
the next eight days +50; otherwise (or with no due date) +0.  Timestamps
are in seconds; a day is `days` seconds. -/
def dueContribution (now : Int) (t : TaskRecord) : Int :=
  match t.dueDate with
  | none => 0
  | some due =>
    let diff := due - now
    if diff < 0 then 200
    else if 0 ≤ diff ∧ diff < 1 * days then 150
    else if 1 * days ≤ diff ∧ diff < 2 * days then 100
    else if 2 * days ≤ diff ∧ diff < 8 * days then 50
    else 0

/-- Stated from the claim: the duration contribution — ≤15 minutes +30,
≤30 minutes +20, ≤60 minutes +10, otherwise or absent +0. -/
def durationContribution (t : TaskRecord) : Int :=
  match t.estimatedMinutes with
  | none => 0
  | some est =>
    if est ≤ 15 then 30
    else if 15 < est ∧ est ≤ 30 then 20
    else if 30 < est ∧ est ≤ 60 then 10
    else 0

/-- C5.  The urgency score is the sum of the three independent additive
contributions of the claim (flagged bonus, exactly one due-date band, one
duration band), and no other field of the record affects it: two records
agreeing on flagged, due date and estimated duration always score
identically under the same clock. -/
theorem c5_urgency_score :
    (∀ (now : Int) (t : TaskRecord),
      urgencyScore now t =
        flaggedContribution t + dueContribution now t +
          durationContribution t) ∧
    (∀ (now : Int) (t u : TaskRecord), t.flagged = u.flagged →
      t.dueDate = u.dueDate → t.estimatedMinutes = u.estimatedMinutes →
      urgencyScore now t = urgencyScore now u) := by
  constructor
  · intro now t
    rw [urgencyScore, flaggedContribution, dueContribution,
      durationContribution]
    congr 1
    · congr 1
      cases t.dueDate with
      | none => rfl
      | some due =>
        simp only
        split_ifs <;> omega
    · cases t.estimatedMinutes with
      | none => rfl
      | some est =>
        simp only
        split_ifs <;> omega
  · intro now t u h1 h2 h3
    rw [urgencyScore, urgencyScore, h1, h2, h3]

/-- C5 witness: the decomposition at a concrete task, and score-equality of
two records differing only in fields outside the score. -/
theorem c5_witness :
    urgencyScore 0 taskUrgent =
      flaggedContribution taskUrgent + dueContribution 0 taskUrgent +
        durationContribution taskUrgent ∧
    urgencyScore 0 taskPlain =
      urgencyScore 0 { taskPlain with name := "other", note := "note" } :=
  ⟨c5_urgency_score.1 0 taskUrgent,
   c5_urgency_score.2 0 taskPlain
     { taskPlain with name := "other", note := "note" } rfl rfl rfl⟩

/-! ### C6 — tier ordering of the result -/

/-- C6.  Under the urgent-first preference the returned task list is the
high bucket, then the medium bucket, then the low bucket; under the natural
preference the tier order is reversed (low, medium, high).  Every element
of a bucket classifies into that bucket's tier (so every high-tier task
precedes every medium-tier task, which precedes every low-tier task, or
conversely), and each bucket is an order-preserving selection from the
scanned stream — within a tier the original scan order is preserved and no
other re-sorting happens. -/
theorem c6_tier_ordering (p : GetDataByPerspectiveParams) (db : Database) :
    (resolvedPrioritizeUrgent p = true →
      queryTasks p db = (queryScan p db).highTasks ++
        (queryScan p db).medTasks ++ (queryScan p db).lowTasks) ∧
    (resolvedPrioritizeUrgent p = false →
      queryTasks p db = (queryScan p db).lowTasks ++
        (queryScan p db).medTasks ++ (queryScan p db).highTasks) ∧
    (∀ t ∈ (queryScan p db).highTasks,
      getPriorityLevel (urgencyScore db.now t) = .high) ∧
    (∀ t ∈ (queryScan p db).medTasks,
      getPriorityLevel (urgencyScore db.now t) = .medium) ∧
    (∀ t ∈ (queryScan p db).lowTasks,
      getPriorityLevel (urgencyScore db.now t) = .low) ∧
    (queryScan p db).highTasks.Sublist db.tasks ∧
    (queryScan p db).medTasks.Sublist db.tasks ∧
    (queryScan p db).lowTasks.Sublist db.tasks := by
  obtain ⟨d1, d2, d3, a1, a2, a3, b1, b2, b3, p1, p2, p3, c1, c2, c3,
    f1, f2, f3⟩ := queryScan_spec p db
  have e1 : (queryScan p db).highTasks = d1 := by simpa using a1
  have e2 : (queryScan p db).medTasks = d2 := by simpa using a2
  have e3 : (queryScan p db).lowTasks = d3 := by simpa using a3
  refine ⟨?_, ?_, ?_, ?_, ?_, ?_, ?_, ?_⟩
  · intro hu
    rw [queryTasks_eq, assembleTasks, if_pos hu]
  · intro hu
    rw [queryTasks_eq, assembleTasks, if_neg (by simp [hu])]
  · intro t ht
    exact (p1 t (e1 ▸ ht)).2
  · intro t ht
    exact (p2 t (e2 ▸ ht)).2
  · intro t ht
    exact (p3 t (e3 ▸ ht)).2
  · exact e1 ▸ b1
  · exact e2 ▸ b2
  · exact e3 ▸ b3

/-- C6 witness: at budget 10 with all three fixture tasks, the urgent-first
concatenation equation holds concretely and the low bucket's member indeed
classifies low. -/
theorem c6_witness :
    queryTasks paramsBudgetTen
        { tasks := [taskPlain, taskUrgent, taskSoon], projects := [],
          now := 0 } =
      (queryScan paramsBudgetTen
        { tasks := [taskPlain, taskUrgent, taskSoon], projects := [],
          now := 0 }).highTasks ++
      (queryScan paramsBudgetTen
        { tasks := [taskPlain, taskUrgent, taskSoon], projects := [],
          now := 0 }).medTasks ++
      (queryScan paramsBudgetTen
        { tasks := [taskPlain, taskUrgent, taskSoon], projects := [],
          now := 0 }).lowTasks ∧
    getPriorityLevel (urgencyScore 0 taskPlain) = .low := by
  refine ⟨(c6_tier_ordering paramsBudgetTen
    { tasks := [taskPlain, taskUrgent, taskSoon], projects := [],
      now := 0 }).1 rfl, ?_⟩
  have h := (c6_tier_ordering paramsBudgetTen
    { tasks := [taskPlain, taskUrgent, taskSoon], projects := [],
      now := 0 }).2.2.2.2.1 taskPlain (by decide)
  exact h

/-! ### C7 — project records and the hide-completed toggle -/

/-- A database holding a single, completed ("done") project. -/
def dbDoneProject : Database :=
  { tasks := [], projects := [doneProject], now := 0 }

/-- C7.  With hide-completed in effect (the default), the optimized path
still returns the done project: its project loop applies no filter at all,
so the project list is all of `flattened projects`, not the survivors of
the completed/dropped toggle.  The plain script's project loop
(`visibleProjectsPlain`) does implement the toggle and excludes the same
project, which is the behaviour the claim describes. -/
theorem c7_project_filter_bug :
    resolvedHideCompleted paramsBudgetTen = true ∧
    doneProject.status = "done" ∧
    queryProjects paramsBudgetTen dbDoneProject = [doneProject] ∧
    (getDataByPerspectiveModel paramsBudgetTen dbDoneProject).projects =
      some [doneProject] ∧
    visibleProjectsPlain true [doneProject] = [] := by
  refine ⟨rfl, rfl, by decide, by decide, by decide⟩

/-! ### C8 — budget validation -/

/-- Criteria carrying an explicit zero budget. -/
def paramsBudgetZero : GetDataByPerspectiveParams :=
  { perspectiveName := "Zero", maxResults := some 0 }

/-- A database with one task and one project. -/
def dbOneEach : Database :=
  { tasks := [taskPlain], projects := [doneProject], now := 0 }

/-- C8 counterexample.  With a budget of 0 (≤ 0) the engine performs no
validation and produces no failure: the provider call is made (its project
records flow into the output) and the result is a success carrying no error
message, contradicting the claim that a ValidationError failure is
returned before any provider call. -/
theorem c8_counterexample :
    (getDataByPerspectiveModel paramsBudgetZero dbOneEach).success = true ∧
    (getDataByPerspectiveModel paramsBudgetZero dbOneEach).error = none ∧
    (getDataByPerspectiveModel paramsBudgetZero dbOneEach).projects =
      some [doneProject] := by
  refine ⟨by decide, by decide, by decide⟩

/-- C8 (amended).  The budget defaults to 500 when absent, but no
validation is performed: a non-positive budget is passed straight through
to the provider call, every tier capacity is then non-positive, and the
engine returns a success result with an empty task list (and the provider's
projects) rather than a ValidationError failure. -/
theorem c8_no_validation :
    (∀ p : GetDataByPerspectiveParams, p.maxResults = none →
      resolvedMaxResults p = 500) ∧
    (∀ (p : GetDataByPerspectiveParams) (db : Database),
      resolvedMaxResults p ≤ 0 →
      (getDataByPerspectiveModel p db).success = true ∧
      (getDataByPerspectiveModel p db).error = none ∧
      (getDataByPerspectiveModel p db).tasks = some [] ∧
      (getDataByPerspectiveModel p db).projects = some db.projects) := by
  constructor
  · intro p hp
    rw [resolvedMaxResults, hp]
    rfl
  · intro p db hb
    have hsat : saturated (mkScanConfig p db.now) {} :=
      ⟨capHigh_nonpos hb, capMed_nonpos hb, capLow_nonpos hb⟩
    have hscan : scanTasks (mkScanConfig p db.now) db.tasks {} = {} := by
      rw [scanTasks, scanTasksCounted_of_saturated hsat]
    refine ⟨?_, ?_, ?_, ?_⟩ <;>
      simp [getDataByPerspectiveModel, scriptResponse, runOptimizedScript,
        handleResponse, hscan, assembleTasks]

/-- C8 witness: the default budget resolves to 500, and a zero budget
yields an empty task list with no failure. -/
theorem c8_witness :
    resolvedMaxResults paramsBudgetTen ≤ 10 ∧
    resolvedMaxResults { perspectiveName := "Today" } = 500 ∧
    (getDataByPerspectiveModel paramsBudgetZero dbOneEach).tasks =
      some [] :=
  ⟨by decide,
   c8_no_validation.1 { perspectiveName := "Today" } rfl,
   (c8_no_validation.2 paramsBudgetZero dbOneEach (by decide)).2.2.1⟩

/-! ### C9 — provider-reported failure -/

/-- C9.  Whenever the parsed provider response has `success:false`, the
engine resolves with a failure carrying exactly the provider's error
message and no task list, no project list and no stats. -/
theorem c9_provider_error (r : ParsedResponse) (h : r.success = false) :
    handleResponse r =
      { success := false, perspective := none, tasks := none,
        projects := none, stats := none, error := r.error } := by
  rw [handleResponse, h]
  rfl

/-- The provider response of the claim's scenario. -/
def respNotFound : ParsedResponse :=
  { success := false, error := some "Perspective not found" }

/-- C9 witness: the scenario response is surfaced verbatim. -/
theorem c9_witness :
    handleResponse respNotFound =
      { success := false, perspective := none, tasks := none,
        projects := none, stats := none,
        error := some "Perspective not found" } :=
  c9_provider_error respNotFound rfl

/-! ### C10 — degenerate budgets -/

/-- C10.  For every nonnegative budget at most 2, all three tier capacities
are 0, so regardless of the input the returned task list is empty and every
per-tier stats counter is 0; and for every nonnegative budget below 5 the
low tier's capacity is 0, its bucket stays empty, and no low-tier task is
ever returned. -/
theorem c10_small_budget (p : GetDataByPerspectiveParams) (db : Database) :
    (0 ≤ resolvedMaxResults p → resolvedMaxResults p ≤ 2 →
      capHigh (resolvedMaxResults p) = 0 ∧
      capMed (resolvedMaxResults p) = 0 ∧
      capLow (resolvedMaxResults p) = 0 ∧
      queryTasks p db = [] ∧
      (queryStats p db).highPriority = 0 ∧
      (queryStats p db).mediumPriority = 0 ∧
      (queryStats p db).lowPriority = 0) ∧
    (0 ≤ resolvedMaxResults p → resolvedMaxResults p < 5 →
      capLow (resolvedMaxResults p) = 0 ∧
      (queryScan p db).lowTasks = [] ∧
      (∀ t ∈ queryTasks p db,
        getPriorityLevel (urgencyScore db.now t) ≠ .low)) := by
  constructor
  · intro hb0 hb2
    have hch : capHigh (resolvedMaxResults p) = 0 := by rw [capHigh]; omega
    have hcm : capMed (resolvedMaxResults p) = 0 := by rw [capMed]; omega
    have hcl : capLow (resolvedMaxResults p) = 0 := by rw [capLow]; omega
    have hsat : saturated (mkScanConfig p db.now) {} := by
      refine ⟨?_, ?_, ?_⟩ <;>
        simp only [mkScanConfig] <;> omega
    have hscan : scanTasks (mkScanConfig p db.now) db.tasks {} = {} := by
      rw [scanTasks, scanTasksCounted_of_saturated hsat]
    have hqs : queryScan p db = {} := hscan
    refine ⟨hch, hcm, hcl, ?_, ?_, ?_, ?_⟩
    · rw [queryTasks_eq, hqs, assembleTasks]
      split_ifs <;> rfl
    · show (queryScan p db).highCount = 0
      rw [hqs]
    · show (queryScan p db).medCount = 0
      rw [hqs]
    · show (queryScan p db).lowCount = 0
      rw [hqs]
  · intro hb0 hb5
    have hcl : capLow (resolvedMaxResults p) = 0 := by rw [capLow]; omega
    obtain ⟨d1, d2, d3, a1, a2, a3, b1, b2, b3, p1, p2, p3, c1, c2, c3,
      f1, f2, f3⟩ := queryScan_spec p db
    have hlc : (queryScan p db).lowCount ≤ capLow (resolvedMaxResults p) :=
      f3 (show (0 : Int) ≤ capLow (resolvedMaxResults p) by omega)
    have hc3 : (queryScan p db).lowCount = 0 + (d3.length : Int) := c3
    have hd3 : d3 = [] := by
      have hz : d3.length = 0 := by omega
      exact List.length_eq_zero.mp hz
    have e1 : (queryScan p db).highTasks = d1 := by simpa using a1
    have e2 : (queryScan p db).medTasks = d2 := by simpa using a2
    have e3 : (queryScan p db).lowTasks = d3 := by simpa using a3
    refine ⟨hcl, by rw [e3, hd3], ?_⟩
    intro t ht
    rw [queryTasks_eq, assembleTasks] at ht
    have hmem : t ∈ d1 ∨ t ∈ d2 := by
      rw [e1, e2, e3, hd3] at ht
      by_cases hu : resolvedPrioritizeUrgent p = true
      · rw [if_pos hu, List.append_nil] at ht
        exact List.mem_append.mp ht
      · rw [if_neg hu, List.nil_append] at ht
        exact (List.mem_append.mp ht).symm
    rcases hmem with hx | hx
    · have htier : getPriorityLevel (urgencyScore db.now t) =
          Priority.high := (p1 t hx).2
      rw [htier]
      intro hcontra
      exact Priority.noConfusion hcontra
    · have htier : getPriorityLevel (urgencyScore db.now t) =
          Priority.medium := (p2 t hx).2
      rw [htier]
      intro hcontra
      exact Priority.noConfusion hcontra

/-- C10 witness: at budget 2 the result is empty whatever the database
holds; at budget 4 no low-tier task is returned even though `taskPlain`
(tier low) is in the stream. -/
theorem c10_witness :
    queryTasks { perspectiveName := "Today", maxResults := some 2 }
      dbOneEach = [] ∧
    (∀ t ∈ queryTasks { perspectiveName := "Today", maxResults := some 4 }
      dbOneEach, getPriorityLevel (urgencyScore dbOneEach.now t) ≠ .low) :=
  ⟨((c10_small_budget { perspectiveName := "Today", maxResults := some 2 }
      dbOneEach).1 (by decide) (by decide)).2.2.2.1,
   ((c10_small_budget { perspectiveName := "Today", maxResults := some 4 }
      dbOneEach).2 (by decide) (by decide)).2.2⟩
